import Mathlib

/-! Verification development for the heating-rate / bulk-viscosity analysis
repository.  The Python sources `bulkvisctrap_class.py`, `fit_functions.py`
and `fit_heating_rates.py` are shallowly embedded: floating point numbers are
idealised as real numbers, `scipy.integrate.quad(f, 0, np.inf)` as the Bochner
integral over `Set.Ioi 0`, and the class constructors as functions returning
structures of the stored attributes. -/

noncomputable section

open MeasureTheory

namespace BulkVisc

/-- Models `scipy.integrate.quad(f, 0, np.inf)[0]` (the value of an improper
integral over the half line, error estimate dropped). -/
def quadIoi (f : ℝ → ℝ) : ℝ := ∫ v in Set.Ioi (0 : ℝ), f v

/-- Models `eosrat = BarycentricRational(the node, value and
weight arrays of eosfit)` from `bulkvisctrap_class.py`: the second-kind barycentric
rational interpolant sum(w_i f_i/(z-z_i)) / sum(w_i/(z-z_i)) with the literal
node/value/weight data of `eosfit`. -/
def eosrat (z : ℝ) : ℝ :=
  (0.52786226 * 26.6603452 / (z - 54.598150)
    + (-0.10489219) * 0.000335574145 / (z - 0.000335462628)
    + (-0.69208542) * 5.63725236 / (z - 4.48168907)
    + 0.48101646 * 1.91237718 / (z - 1.28402542))
  / (0.52786226 / (z - 54.598150)
    + (-0.10489219) / (z - 0.000335462628)
    + (-0.69208542) / (z - 4.48168907)
    + 0.48101646 / (z - 1.28402542))

/-- Models `sumrat = BarycentricRational(the sumrulefit arrays)` with the
literal data of `sumrulefit`. -/
def sumrat (z : ℝ) : ℝ :=
  (0.33160786 * 1.46259386 / (z - 12.2144641)
    + (-0.30343046) * 0.000124595501 / (z - 0.00833717634)
    + (-0.66528124) * 0.581003381 / (z - 3.05244000)
    + 0.59612671 * 0.0549151117 / (z - 0.348110474))
  / (0.33160786 / (z - 12.2144641)
    + (-0.30343046) / (z - 0.00833717634)
    + (-0.66528124) / (z - 3.05244000)
    + 0.59612671 / (z - 0.348110474))

/-- Translation of `eos_ufg(betamu)`: EOS (phase space density) of the unitary
gas for both spin components; `np.where` on a scalar condition is an
if-then-else. -/
def eos_ufg (betamu : ℝ) : ℝ :=
  2 * (if betamu < -8 then Real.exp betamu else eosrat (Real.exp betamu))

/-- The quadratic width `gammaT = 1.739 - 0.0892*z + 0.00156*z**2` of the
viscosity peak, a local of both `zeta` and `phaseshift_arg`. -/
def gammaT (z : ℝ) : ℝ := 1.739 - 0.0892 * z + 0.00156 * z ^ 2

/-- Translation of `zeta(betamu, betaomega)`: dimensionless bulk viscosity. -/
def zeta (betamu betaomega : ℝ) : ℝ :=
  (if betamu < -4.8 then 0.36 * Real.exp betamu ^ ((5 : ℝ) / 3)
    else sumrat (Real.exp betamu))
  * gammaT (Real.exp betamu) / (betaomega ^ 2 + gammaT (Real.exp betamu) ^ 2)

/-- Translation of `phaseshift_arg(betamu, betaomega)`. -/
def phaseshift_arg (betamu betaomega : ℝ) : ℝ :=
  betaomega * gammaT (Real.exp betamu)
    / (betaomega ^ 2 + gammaT (Real.exp betamu) ^ 2)

/-- Translation of `thermo_bulk(betamu, T)`, returning
`(f_n, theta, f_p, Ebulk)` (the quad error estimate is dropped). -/
def thermo_bulk (betamu T : ℝ) : ℝ × ℝ × ℝ × ℝ :=
  let f_n := eos_ufg betamu
  let theta := 4 * Real.pi / (3 * Real.pi ^ 2 * f_n) ^ ((2 : ℝ) / 3)
  let f_p := quadIoi (fun v => eos_ufg (betamu - v))
  let Ebulk := (3 / 2) * f_p * T
  (f_n, theta, f_p, Ebulk)

/-- Translation of `heating_bulk(T, betamu, betaomega)`. -/
def heating_bulk (T betamu betaomega : ℝ) : ℝ :=
  let Zbulk := eos_ufg betamu ^ ((1 : ℝ) / 3) * zeta betamu betaomega
  9 * Real.pi * (T * betaomega) ^ 2 / (3 * Real.pi ^ 2) ^ ((2 : ℝ) / 3) * Zbulk

/-- Translation of `weight(v, betabaromega)`: area of the equipotential
surface at potential value `v`. -/
def weight (v betabaromega : ℝ) : ℝ :=
  2 / (betabaromega ^ 3) * Real.sqrt (v / Real.pi)

/-- Translation of `number_per_spin(betamu, betabaromega)`. -/
def number_per_spin (betamu betabaromega : ℝ) : ℝ :=
  quadIoi (fun v => weight v betabaromega * eos_ufg (betamu - v) / 2)

/-- Translation of `Epot_trap(betamu, betabaromega)`. -/
def Epot_trap (betamu betabaromega : ℝ) : ℝ :=
  quadIoi (fun v => weight v betabaromega * eos_ufg (betamu - v) * v)

/-- Translation of `thermo_trap(T, betamu, betabaromega)`, returning
`(Ns, EF, Theta, Epot)`. -/
def thermo_trap (T betamu betabaromega : ℝ) : ℝ × ℝ × ℝ × ℝ :=
  let Ns := number_per_spin betamu betabaromega
  let EF := T * betabaromega * (6 * Ns) ^ ((1 : ℝ) / 3)
  let Theta := T / EF
  let Epot := T * Epot_trap betamu betabaromega
  (Ns, EF, Theta, Epot)

/-- The local trap-averaged quantity `Ztrap` computed by `quad` inside
`heating_trap`. -/
def Ztrap (betamu betaomega betabaromega : ℝ) : ℝ :=
  quadIoi (fun v => weight v betabaromega * eos_ufg (betamu - v) ^ ((1 : ℝ) / 3)
    * zeta (betamu - v) betaomega)

/-- Translation of `heating_trap(T, betamu, betaomega, betabaromega)`. -/
def heating_trap (T betamu betaomega betabaromega : ℝ) : ℝ :=
  9 * Real.pi * (T * betaomega) ^ 2 / (3 * Real.pi ^ 2) ^ ((2 : ℝ) / 3)
    * Ztrap betamu betaomega betabaromega

/-- Translation of `phaseshift_arg_trap(betamu, betaomega, betabaromega)`. -/
def phaseshift_arg_trap (betamu betaomega betabaromega : ℝ) : ℝ :=
  quadIoi (fun v => weight v betabaromega * eos_ufg (betamu - v) ^ ((1 : ℝ) / 3)
      * phaseshift_arg (betamu - v) betaomega)
  / quadIoi (fun v => weight v betabaromega * eos_ufg (betamu - v) ^ ((1 : ℝ) / 3))

/-- Modelled from the spec: `find_betamu` calls the library routine
`scipy.optimize.root_scalar` on `x ↦ EF - T*betabaromega*(6*number_per_spin(x,
betabaromega))**(1/3)` with a sign-changing bracket, which returns a root of
that function; this predicate says `betamu` is such a returned root. -/
def find_betamu_returns (T EF betabaromega betamu : ℝ) : Prop :=
  EF - T * betabaromega * (6 * number_per_spin betamu betabaromega) ^ ((1 : ℝ) / 3) = 0

/-- Models the Python builtin int truncation toward zero on a real value. -/
def pyInt (x : ℝ) : ℤ := if 0 ≤ x then Int.floor x else Int.ceil x

/-- Models `np.linspace(a, b, num)`: `num` evenly spaced points from `a` to
`b` inclusive. -/
def linspace (a b : ℝ) (num : ℕ) : List ℝ :=
  (List.range num).map (fun i => a + (b - a) * i / ((num : ℝ) - 1))

/-- Stored attributes of the Python class `BulkViscUniform` (plot-label
strings are omitted). -/
structure BulkViscUniform where
  T : ℝ
  barnu : ℝ
  mubulk : ℝ
  A : ℝ
  nus : List ℝ
  theta : ℝ
  Ebulk : ℝ
  Edotbulks : List ℝ
  zetas : List ℝ
  phaseshifts : List ℝ

/-- Translation of `BulkViscUniform.__init__(T, barnu, mubulk, nu_max)`.
Note the source reassigns `nu_max = 160000` before building the grid. -/
def mkBulkViscUniform (T barnu mubulk nu_max : ℝ) : BulkViscUniform :=
  let hbar := (1.05e-34 : ℝ)
  let m := (40 : ℝ) * 1.67e-27
  let lambda_T := Real.sqrt (hbar / (m * T))
  let a0 := lambda_T
  let A := lambda_T / a0
  let nu_max := (160000 : ℝ)
  let nus := linspace 0 nu_max (pyInt (nu_max / 1000) + 1).toNat
  let betamubulk := mubulk / T
  let tb := thermo_bulk betamubulk T
  { T := T, barnu := barnu, mubulk := mubulk, A := A, nus := nus,
    theta := tb.2.1, Ebulk := tb.2.2.2,
    Edotbulks := nus.map (fun nu => A ^ 2 * heating_bulk T betamubulk (nu / T)),
    zetas := nus.map (fun nu => zeta betamubulk (nu / T)),
    phaseshifts := nus.map (fun nu => Real.arctan (phaseshift_arg betamubulk (nu / T))) }

/-- Stored attributes of the Python class `BulkViscTrap` (label strings
omitted). -/
structure BulkViscTrap where
  T : ℝ
  barnu : ℝ
  mutrap : ℝ
  A : ℝ
  nus : List ℝ
  EF : ℝ
  Theta : ℝ
  Etotal : ℝ
  Edottraps : List ℝ

/-- Translation of `BulkViscTrap.__init__(T, barnu, mutrap, nu_max)`. -/
def mkBulkViscTrap (T barnu mutrap nu_max : ℝ) : BulkViscTrap :=
  let hbar := (1.05e-34 : ℝ)
  let m := (40 : ℝ) * 1.67e-27
  let lambda_T := Real.sqrt (hbar / (m * T))
  let a0 := lambda_T
  let A := lambda_T / a0
  let nus := linspace 0 nu_max (pyInt (nu_max / 1000) + 1).toNat
  let betamutrap := mutrap / T
  let betabaromega := barnu / T
  let tt := thermo_trap T betamutrap betabaromega
  { T := T, barnu := barnu, mutrap := mutrap, A := A, nus := nus,
    EF := tt.2.1, Theta := tt.2.2.1, Etotal := 2 * tt.2.2.2,
    Edottraps := nus.map (fun nu => A ^ 2 * heating_trap T betamutrap (nu / T) betabaromega) }

/-- Stored attributes of the Python class `BulkViscTrapToTF` (label strings
omitted). -/
structure BulkViscTrapToTF where
  A : ℝ
  nus : List ℝ
  Ns : ℝ
  EF : ℝ
  Theta : ℝ
  Etotal : ℝ
  Edottraps : List ℝ

/-- Translation of `BulkViscTrapToTF.__init__(Theta, EF, barnu, mutrap_guess,
nu_max)`.  The chemical potential `betamutrap` produced by the library
root-finder `find_betamu` is passed in as an argument; `find_betamu_returns`
characterises it. -/
def mkBulkViscTrapToTF (Theta EF barnu betamutrap nu_max : ℝ) : BulkViscTrapToTF :=
  let T := EF * Theta
  let hbar := (1.05e-34 : ℝ)
  let m := (40 : ℝ) * 1.67e-27
  let lambda_T := Real.sqrt (hbar / (m * T))
  let a0 := lambda_T
  let A := lambda_T / a0
  let nus := linspace 1000 nu_max (2 * pyInt (nu_max / 1000) - 1).toNat
  let betabaromega := barnu / T
  let tt := thermo_trap T betamutrap betabaromega
  { A := A, nus := nus, Ns := tt.1, EF := tt.2.1, Theta := tt.2.2.1,
    Etotal := 2 * tt.2.2.2,
    Edottraps := nus.map (fun nu => A ^ 2 * heating_trap T betamutrap (nu / T) betabaromega) }

end BulkVisc

namespace FitFunctions

/-- Models `numpy.sinc`: the normalised sinc `sin(pi x)/(pi x)`, with value
`1` at `0`. -/
def np_sinc (x : ℝ) : ℝ :=
  if x = 0 then 1 else Real.sin (Real.pi * x) / (Real.pi * x)

/-- Models `math.erfc`: the complementary error function
`1 - (2/sqrt pi) * int_0^x exp(-t^2) dt`. -/
def erfc (x : ℝ) : ℝ :=
  1 - 2 / Real.sqrt Real.pi * ∫ t in (0 : ℝ)..x, Real.exp (-t ^ 2)

/-- Models `data[:,0]` for a two-column data array given as a row list. -/
def xcol (data : List (ℝ × ℝ)) : List ℝ := data.map Prod.fst

/-- Models `data[:,1]`. -/
def ycol (data : List (ℝ × ℝ)) : List ℝ := data.map Prod.snd

/-- Models `arr.mean()`. -/
def lmean (l : List ℝ) : ℝ := l.sum / l.length

/-- Models `arr.max()` for a nonempty array (numpy raises on an empty one;
here the fold starts at the head, `0` for the empty list). -/
def lmax (l : List ℝ) : ℝ := l.foldr max l.headI

/-- Models `arr.min()` (same nonempty convention as `lmax`). -/
def lmin (l : List ℝ) : ℝ := l.foldr min l.headI

/-- Models `data[np.abs(data[:,1]).argmax(), 0]`: the x value of the row whose
|y| is largest, first such row on ties, as `argmax` returns the first index. -/
def x_ofmax (data : List (ℝ × ℝ)) : ℝ :=
  (data.foldl (fun p q => if |p.2| < |q.2| then q else p) data.headI).1

/-- The triple returned by each function of `fit_functions.py`: the model
function (taking the free parameters as a list, in the order of the Python
signature after `x`), the number of free parameters of that signature, the
initial guess (`none` models Python `None`) and the parameter-name list. -/
structure FitResult where
  model : ℝ → List ℝ → ℝ
  arity : ℕ
  guess : Option (List ℝ)
  param_names : List String

/-- Translation of `fit_functions.Linear`. -/
def Linear (_data : List (ℝ × ℝ)) : FitResult :=
  { model := fun x ps => match ps with | [m, b] => m * x + b | _ => 0
    arity := 2
    guess := none
    param_names := ["m", "b"] }

/-- Translation of `fit_functions.Parabola`. -/
def Parabola (data : List (ℝ × ℝ)) : FitResult :=
  { model := fun x ps => match ps with | [A, x0, C] => A * (x - x0) ^ 2 + C | _ => 0
    arity := 3
    guess := some [lmax (ycol data) - lmean (ycol data), x_ofmax data, lmean (ycol data)]
    param_names := ["A", "x0", "C"] }

/-- Translation of `fit_functions.Sqrt`. -/
def Sqrt (data : List (ℝ × ℝ)) : FitResult :=
  { model := fun x ps => match ps with | [A, x0] => A * Real.sqrt (x - x0) | _ => 0
    arity := 2
    guess := some [lmax (ycol data) - lmin (ycol data), 0]
    param_names := ["A", "x0"] }

/-- Translation of `fit_functions.Gaussian`. -/
def Gaussian (data : List (ℝ × ℝ)) : FitResult :=
  { model := fun x ps => match ps with
      | [A, x0, sigma, C] => A * Real.exp (-(x - x0) ^ 2 / (2 * sigma ^ 2)) + C
      | _ => 0
    arity := 4
    guess := some [lmax (ycol data) - lmean (ycol data), x_ofmax data,
      (lmax (xcol data) - lmin (xcol data)) / 2, lmean (ycol data)]
    param_names := ["A", "x0", "sigma", "C"] }

/-- Translation of `fit_functions.Lorentzian`. -/
def Lorentzian (data : List (ℝ × ℝ)) : FitResult :=
  { model := fun x ps => match ps with
      | [A, x0, sigma, C] => A / ((x - x0) ^ 2 + sigma ^ 2) + C
      | _ => 0
    arity := 4
    guess := some [lmax (ycol data) - lmean (ycol data), x_ofmax data,
      (lmax (xcol data) - lmin (xcol data)) / 2, lmean (ycol data)]
    param_names := ["A", "x0", "sigma", "C"] }

/-- Translation of `fit_functions.Sin`. -/
def Sin (data : List (ℝ × ℝ)) : FitResult :=
  { model := fun x ps => match ps with
      | [A, omega, phi, C] => A * Real.sin (omega * x - phi) + C
      | _ => 0
    arity := 4
    guess := some [lmax (ycol data) - lmean (ycol data), 1, 0, lmean (ycol data)]
    param_names := ["A", "omega", "phi", "C"] }

/-- Translation of `fit_functions.Sinc`. -/
def Sinc (data : List (ℝ × ℝ)) : FitResult :=
  { model := fun x ps => match ps with
      | [A, x0, sigma, C] => A * np_sinc ((x - x0) / sigma) + C
      | _ => 0
    arity := 4
    guess := some [lmax (ycol data) - lmean (ycol data), x_ofmax data,
      (lmax (xcol data) - lmin (xcol data)) / 2, lmean (ycol data)]
    param_names := ["A", "x0", "sigma", "C"] }

/-- Translation of `fit_functions.Sinc2`.  The body squares the sinc (the
docstring of the source omits the square). -/
def Sinc2 (data : List (ℝ × ℝ)) : FitResult :=
  { model := fun x ps => match ps with
      | [A, x0, sigma, C] => A * np_sinc ((x - x0) / sigma) ^ 2 + C
      | _ => 0
    arity := 4
    guess := some [lmax (ycol data) - lmean (ycol data), x_ofmax data,
      (lmax (xcol data) - lmin (xcol data)) / 2, lmean (ycol data)]
    param_names := ["A", "x0", "sigma", "C"] }

/-- Translation of `fit_functions.TrapFreq`. -/
def TrapFreq (_data : List (ℝ × ℝ)) : FitResult :=
  { model := fun x ps => match ps with
      | [A, b, l, x0, C, D] => A * Real.exp (-x / b) * Real.sin (l * x - x0) + C + D * x
      | _ => 0
    arity := 6
    guess := some [10000, 0.05, 20, -2, 100, -0.1]
    param_names := ["Amplitude", "b", "l", "Center", "Offset", "Linear Slope"] }

/-- Translation of `fit_functions.TrapFreq2`.  The model signature still has
six parameters (the unused `D`) while `param_names` lists only five. -/
def TrapFreq2 (_data : List (ℝ × ℝ)) : FitResult :=
  { model := fun x ps => match ps with
      | [A, b, l, x0, C, _D] => A * Real.exp (-x / b) * Real.sin (l * x - x0) + C
      | _ => 0
    arity := 6
    guess := some [10000, 0.05, 20, -2, 100, -0.1]
    param_names := ["Amplitude", "b", "l", "Center", "Offset"] }

/-- Translation of `fit_functions.RabiFreq`. -/
def RabiFreq (_data : List (ℝ × ℝ)) : FitResult :=
  { model := fun x ps => match ps with
      | [A, b, x0, C] => A * Real.sin (b / 2 * x - x0) ^ 2 + C
      | _ => 0
    arity := 4
    guess := some [1, 1, 1, 0]
    param_names := ["Amplitdue", "b", "Center", "Offset"] }

/-- Translation of `fit_functions.Expontial` (source spelling). -/
def Expontial (data : List (ℝ × ℝ)) : FitResult :=
  { model := fun x ps => match ps with
      | [A, sigma] => A * Real.exp (-x / sigma)
      | _ => 0
    arity := 2
    guess := some [lmax (xcol data) - lmin (xcol data), 1]
    param_names := ["Amplitude", "sigma"] }

/-- Translation of `fit_functions.RabiLine`. -/
def RabiLine (_data : List (ℝ × ℝ)) : FitResult :=
  { model := fun x ps => match ps with
      | [b, l, m, A, s, j, k, p] =>
          b ^ 2 / (l ^ 2 + (x - m) ^ 2)
            * (A * Real.sin (Real.sqrt (s ^ 2 + (x - j) ^ 2) * k) ^ 2 + p)
      | _ => 0
    arity := 8
    guess := some [1, 1, 1, 1, 1, 1, 1, 0]
    param_names := ["b", "l", "m", "A", "s", "j", "k", "p"] }

/-- Translation of `fit_functions.ErfcFit`. -/
def ErfcFit (_data : List (ℝ × ℝ)) : FitResult :=
  { model := fun x ps => match ps with
      | [A, x0, b, C] => A * erfc ((x - x0) / b) + C
      | _ => 0
    arity := 4
    guess := some [1, 1, 1, 0]
    param_names := ["Amp", "Center", "b", "Offset"] }

/-- Translation of `fit_functions.SinplusCos`.  The model has four free
parameters `(omega, A, B, C)` while `param_names` lists only three. -/
def SinplusCos (_data : List (ℝ × ℝ)) : FitResult :=
  { model := fun t ps => match ps with
      | [omega, A, B, C] => A * Real.sin (omega * t) + B * Real.cos (omega * t) + C
      | _ => 0
    arity := 4
    guess := some [1, 1, 1, 0]
    param_names := ["Sin Amp", "Cos Amp", "Offset"] }

/-- Translation of `fit_functions.FixedSin` (hard coded 10 kHz,
`omega = 0.010 * 2 * pi`). -/
def FixedSin (_data : List (ℝ × ℝ)) : FitResult :=
  { model := fun t ps => match ps with
      | [A, p, C] =>
          let omega := 0.010 * 2 * Real.pi
          A * Real.sin (omega * t - p) + C
      | _ => 0
    arity := 3
    guess := some [1, 1, 0]
    param_names := ["Amplitude", "phase", "offset"] }

/-- Translation of `fit_functions.FixedSin5kHz` (hard coded 5 kHz,
`omega = 0.005 * 2 * pi`). -/
def FixedSin5kHz (_data : List (ℝ × ℝ)) : FitResult :=
  { model := fun t ps => match ps with
      | [A, p, C] =>
          let omega := 0.005 * 2 * Real.pi
          A * Real.sin (omega * t - p) + C
      | _ => 0
    arity := 3
    guess := some [1, 1, 0]
    param_names := ["Amplitude", "phase", "offset"] }

end FitFunctions

namespace FitHeating

/-- Modelled from the spec: the Planck constant `h`, imported by
`fit_heating_rates.py` from `library.py` (which is not under src/); only its
role as the divisor in the Hz-to-kHz conversion matters here. -/
def h : ℝ := 6.62607015e-34

/-- One row of `run.avg_data` with the columns the analysis reads
(here run.param is the time column and the temp_param setting is the meanEtot_kHz column). -/
structure AvgRow where
  time : ℝ
  meanEtot_kHz : ℝ
  em_meanEtot_kHz : ℝ
  ToTF : ℝ
  em_ToTF : ℝ
  EF : ℝ
  em_EF : ℝ
  T : ℝ
  em_T : ℝ
  N : ℝ
  em_N : ℝ

instance : Inhabited AvgRow := ⟨⟨0, 0, 0, 0, 0, 0, 0, 0, 0, 0, 0⟩⟩

/-- Models `scipy.optimize.curve_fit(linear, xs, ys, sigma=sigmas)` for the
two-parameter model `linear(x, m, Ei) = m*x + Ei`: the weighted least-squares
solution of the normal equations with weights `1/sigma**2`, returned as
`popt = (m, Ei)` (covariance output omitted). -/
def curve_fit_linear (xs ys sigmas : List ℝ) : ℝ × ℝ :=
  let ws := sigmas.map fun s => 1 / s ^ 2
  let S := ws.sum
  let Sx := (List.zipWith (fun w x => w * x) ws xs).sum
  let Sy := (List.zipWith (fun w y => w * y) ws ys).sum
  let Sxx := (List.zipWith (fun w x => w * x ^ 2) ws xs).sum
  let Sxy := (List.zipWith (fun wx y => wx * y) (List.zipWith (fun w x => w * x) ws xs) ys).sum
  let Delta := S * Sxx - Sx ^ 2
  ((S * Sxy - Sx * Sy) / Delta, (Sxx * Sy - Sx * Sxy) / Delta)

/-- The reduced chi-square value computed by `library.chi_sq` when `dof` is
nonzero. -/
def chi_sq_value (ys fs es : List ℝ) (dof : ℤ) : ℝ :=
  (((ys.zip fs).zip es).map (fun p => ((p.1.1 - p.1.2) / p.2) ^ 2)).sum / (dof : ℝ)

/-- Modelled from the spec: `chi_sq(y, yfit, err, dof)` from `library.py`
(not under src/) divides the weighted squared residual sum by `dof` and hence
raises `ZeroDivisionError` exactly when `dof = 0`; the error value models the
raised exception. -/
def chi_sq (ys fs es : List ℝ) (dof : ℤ) : Except Unit ℝ :=
  if dof = 0 then Except.error () else Except.ok (chi_sq_value ys fs es dof)

/-- The attributes of a run computed by `fit_analysis` /
`analysis_for_dof_equals_two` that the claims are about (the error-bar and
field-calibration attributes, which rely on calibration functions from
`library.py`, are omitted). -/
structure RunResult where
  dof : ℤ
  chi_sq : ℝ
  ToTF : ℝ
  EF : ℝ
  T : ℝ
  N : ℝ
  loss_rate : ℝ
  Ei : ℝ
  heating : ℝ

/-- Translation of `fit_analysis(run)` from `fit_heating_rates.py`: linear
fits of the averaged columns against the scan parameter, with the
`try/except ZeroDivisionError` around `chi_sq` setting `chi_sq = 1`. -/
def fit_analysis (rows : List AvgRow) : RunResult :=
  let xs := rows.map (·.time)
  let popt := curve_fit_linear xs (rows.map (·.meanEtot_kHz)) (rows.map (·.em_meanEtot_kHz))
  let dof : ℤ := (rows.length : ℤ) - 2
  let chisq :=
    match chi_sq (rows.map (·.meanEtot_kHz)) (xs.map (fun x => popt.1 * x + popt.2))
        (rows.map (·.em_meanEtot_kHz)) dof with
    | Except.ok c => c
    | Except.error _ => 1
  let poptToTF := curve_fit_linear xs (rows.map (·.ToTF)) (rows.map (·.em_ToTF))
  let poptEF := curve_fit_linear xs (rows.map (·.EF)) (rows.map (·.em_EF))
  let poptT := curve_fit_linear xs (rows.map (·.T)) (rows.map (·.em_T))
  let poptN := curve_fit_linear xs (rows.map (·.N)) (rows.map (·.em_N))
  { dof := dof, chi_sq := chisq,
    ToTF := poptToTF.2, EF := poptEF.2 / h / 1000, T := poptT.2,
    N := poptN.2, loss_rate := poptN.1 / poptN.2,
    Ei := popt.2, heating := popt.1 / popt.2 }

/-- Models `run.avg_data.loc[avg_data[param] == avg_data[param].min()]`
followed by `float(...)` reads: the first row attaining the minimal scan
parameter. -/
def minRow (rows : List AvgRow) : AvgRow :=
  rows.foldl (fun a r => if r.time < a.time then r else a) rows.headI

/-- The first row attaining the maximal scan parameter. -/
def maxRow (rows : List AvgRow) : AvgRow :=
  rows.foldl (fun a r => if a.time < r.time then r else a) rows.headI

/-- Translation of `analysis_for_dof_equals_two(run)`. -/
def analysis_for_dof_equals_two (rows : List AvgRow) : RunResult :=
  let df1 := minRow rows
  let df2 := maxRow rows
  let Ei := df1.meanEtot_kHz
  let Ef := df2.meanEtot_kHz
  let deltax := df2.time - df1.time
  let deltay := Ef / Ei - 1
  { dof := 0, chi_sq := 1,
    ToTF := df1.ToTF, EF := df1.EF / h / 1000, T := df1.T,
    N := df1.N, loss_rate := (df2.N - df1.N) / deltax / df1.N,
    Ei := Ei, heating := deltay / deltax }

/-- Translation of the dispatch in the file loop: runs with exactly two
averaged points go to `analysis_for_dof_equals_two`, all others to
`fit_analysis`. -/
def run_analysis (rows : List AvgRow) : RunResult :=
  if rows.length = 2 then analysis_for_dof_equals_two rows else fit_analysis rows

/-- Translation of the `try/except KeyError` around
reading the first value of the beta column in the file loop: `none` models the missing
column of an old .dat file. -/
def run_beta : Option ℝ → ℝ
  | some b => b
  | none => 1.8339e-5

/-- The analysis portion of the file-loop body: the run attributes computed
from the averaged rows, paired with `run.beta` read from the (possibly
missing) beta column. -/
def analyze_run (rows : List AvgRow) (beta_col : Option ℝ) : RunResult × ℝ :=
  (run_analysis rows, run_beta beta_col)

/-- Models `run.data[name].values[0]`: reading a column of the .dat file,
raising `KeyError` (the error value) when the column is absent. -/
def dat_lookup (cols : List (String × ℝ)) (name : String) : Except Unit ℝ :=
  match cols.find? (fun c => c.1 == name) with
  | some c => Except.ok c.2
  | none => Except.error ()

/-- The inner loop of `fix_attribute`: try the candidate column names in
order, catching `KeyError` and moving on to the next name. -/
def try_names (cols : List (String × ℝ)) : List String → Option ℝ
  | [] => none
  | n :: rest =>
    match dat_lookup cols n with
    | Except.ok v => some v
    | Except.error _ => try_names cols rest

/-- Translation of `fix_attribute(run, attr, attr_names)`: if the current
attribute is nan (`none`), fill it from the first candidate column present in
the .dat data. -/
def fix_attribute (cur : Option ℝ) (cols : List (String × ℝ)) (names : List String) :
    Option ℝ :=
  match cur with
  | some v => some v
  | none => try_names cols names

end FitHeating

section ClaimTheorems

/-- Helper: the width quadratic `gammaT` is strictly positive on all of ℝ
(its discriminant is negative and its leading coefficient positive). -/
theorem gammaT_pos (z : ℝ) : 0 < BulkVisc.gammaT z := by
  unfold BulkVisc.gammaT
  nlinarith [sq_nonneg (z - 1115 / 39)]

/-- Claim C8: for every real `betamu` and `betaomega` (including
`betaomega = 0`) the width `gammaT(exp betamu)` is nonzero and the shared
denominator `betaomega^2 + gammaT^2` of `zeta` and `phaseshift_arg` is
strictly positive, so neither divides by zero. -/
theorem C8_gammaT_denominator_pos (betamu betaomega : ℝ) :
    BulkVisc.gammaT (Real.exp betamu) ≠ 0 ∧
    0 < betaomega ^ 2 + BulkVisc.gammaT (Real.exp betamu) ^ 2 := by
  have hg := gammaT_pos (Real.exp betamu)
  exact ⟨ne_of_gt hg, by nlinarith [sq_nonneg betaomega]⟩

/-- Claim C4: `eos_ufg` returns `2*exp(betamu)` (the Boltzmann limit) for
`betamu < -8` and `2*eosrat(exp betamu)` otherwise, and `zeta` uses the
asymptotic sum rule `0.36*z^(5/3)` for `betamu < -4.8` and `sumrat z`
otherwise. -/
theorem C4_eos_zeta_branches (betamu betaomega : ℝ) :
    BulkVisc.eos_ufg betamu
      = (if betamu < -8 then 2 * Real.exp betamu
         else 2 * BulkVisc.eosrat (Real.exp betamu)) ∧
    BulkVisc.zeta betamu betaomega
      = (if betamu < -4.8 then 0.36 * Real.exp betamu ^ ((5 : ℝ) / 3)
         else BulkVisc.sumrat (Real.exp betamu))
        * BulkVisc.gammaT (Real.exp betamu)
        / (betaomega ^ 2 + BulkVisc.gammaT (Real.exp betamu) ^ 2) := by
  constructor
  · unfold BulkVisc.eos_ufg
    split <;> ring
  · rfl

/-- Claim C2: the trap averages are integrals over the potential value
`v ∈ (0, ∞)` weighted by the equipotential-surface area
`w(v) = 2/betabaromega^3 * sqrt(v/pi)`, with the EOS at the shifted argument
`betamu - v`: `number_per_spin` integrates `w(v)*eos_ufg(betamu-v)/2` and
the local `Ztrap` of `heating_trap` integrates
`w(v)*eos_ufg(betamu-v)^(1/3)*zeta(betamu-v, betaomega)`. -/
theorem C2_trap_averages_are_weighted_integrals (betamu betabaromega betaomega T : ℝ) :
    (∀ v, BulkVisc.weight v betabaromega
        = 2 / betabaromega ^ 3 * Real.sqrt (v / Real.pi)) ∧
    BulkVisc.number_per_spin betamu betabaromega
      = ∫ v in Set.Ioi (0 : ℝ),
          2 / betabaromega ^ 3 * Real.sqrt (v / Real.pi)
            * BulkVisc.eos_ufg (betamu - v) / 2 ∧
    BulkVisc.Ztrap betamu betaomega betabaromega
      = ∫ v in Set.Ioi (0 : ℝ),
          2 / betabaromega ^ 3 * Real.sqrt (v / Real.pi)
            * BulkVisc.eos_ufg (betamu - v) ^ ((1 : ℝ) / 3)
            * BulkVisc.zeta (betamu - v) betaomega ∧
    BulkVisc.heating_trap T betamu betaomega betabaromega
      = 9 * Real.pi * (T * betaomega) ^ 2 / (3 * Real.pi ^ 2) ^ ((2 : ℝ) / 3)
          * BulkVisc.Ztrap betamu betaomega betabaromega :=
  ⟨fun _ => rfl, rfl, rfl, rfl⟩

/-- Claim C1: whenever the root-finder succeeds (the bracketing function has
a root, which `root_scalar` returns), the returned `betamu` satisfies
`T*betabaromega*(6*number_per_spin betamu betabaromega)^(1/3) = EF`, and
consequently the `EF` recomputed through `thermo_trap` and stored by
`BulkViscTrapToTF.__init__` equals the `EF` the instance was constructed
with. -/
theorem C1_find_betamu_inverts_number_relation
    (T EF betabaromega betamu Theta barnu nu_max : ℝ)
    (hroot : BulkVisc.find_betamu_returns T EF betabaromega betamu)
    (hT : T = EF * Theta) (hbb : betabaromega = barnu / T) :
    T * betabaromega
        * (6 * BulkVisc.number_per_spin betamu betabaromega) ^ ((1 : ℝ) / 3) = EF ∧
    (BulkVisc.mkBulkViscTrapToTF Theta EF barnu betamu nu_max).EF = EF := by
  unfold BulkVisc.find_betamu_returns at hroot
  constructor
  · linarith
  · have hEF : (BulkVisc.mkBulkViscTrapToTF Theta EF barnu betamu nu_max).EF
        = EF * Theta * (barnu / (EF * Theta))
            * (6 * BulkVisc.number_per_spin betamu (barnu / (EF * Theta))) ^ ((1 : ℝ) / 3) := rfl
    rw [hEF, ← hT, ← hbb]
    linarith

/-- Witness for C1 at a concrete input. -/
theorem C1_witness :
    BulkVisc.find_betamu_returns 0 0 0 0 ∧ (0 : ℝ) = 0 * 1 ∧ (0 : ℝ) = 0 / 0 ∧
    ((0 : ℝ) * 0 * (6 * BulkVisc.number_per_spin 0 0) ^ ((1 : ℝ) / 3) = 0 ∧
      (BulkVisc.mkBulkViscTrapToTF 1 0 0 0 1).EF = 0) := by
  have hroot : BulkVisc.find_betamu_returns 0 0 0 0 := by
    simp [BulkVisc.find_betamu_returns]
  have hT : (0 : ℝ) = 0 * 1 := by simp
  have hbb : (0 : ℝ) = 0 / 0 := by simp
  exact ⟨hroot, hT, hbb,
    C1_find_betamu_inverts_number_relation 0 0 0 0 1 0 1 hroot hT hbb⟩

/-- Claim C3: both trapped-gas classes store
`Etotal = 2 * (T * Epot_trap(betamu, betabaromega))`, twice the trapping
potential energy returned by `thermo_trap` (virial theorem at unitarity). -/
theorem C3_virial_Etotal (T barnu mutrap nu_max Theta EF betamutrap : ℝ) :
    (BulkVisc.mkBulkViscTrap T barnu mutrap nu_max).Etotal
      = 2 * (T * BulkVisc.Epot_trap (mutrap / T) (barnu / T)) ∧
    (BulkVisc.mkBulkViscTrapToTF Theta EF barnu betamutrap nu_max).Etotal
      = 2 * (EF * Theta * BulkVisc.Epot_trap betamutrap (barnu / (EF * Theta))) :=
  ⟨rfl, rfl⟩

/-- Claim C10: `BulkViscUniform.__init__` overwrites its `nu_max` argument
with `160000` before building the frequency grid, so `self.nus` is always the
161-point linspace from 0 to 160000, whereas `BulkViscTrap` builds its grid
from the `nu_max` it was given. -/
theorem C10_uniform_grid_ignores_nu_max
    (T barnu mubulk nu_max T2 barnu2 mutrap2 nu_max2 : ℝ) :
    (BulkVisc.mkBulkViscUniform T barnu mubulk nu_max).nus
      = BulkVisc.linspace 0 160000 161 ∧
    (BulkVisc.mkBulkViscTrap T2 barnu2 mutrap2 nu_max2).nus
      = BulkVisc.linspace 0 nu_max2 (BulkVisc.pyInt (nu_max2 / 1000) + 1).toNat := by
  constructor
  · show BulkVisc.linspace 0 160000 (BulkVisc.pyInt ((160000 : ℝ) / 1000) + 1).toNat
      = BulkVisc.linspace 0 160000 161
    have h1 : ((160000 : ℝ) / 1000) = ((160 : ℤ) : ℝ) := by norm_num
    have h2 : BulkVisc.pyInt ((160000 : ℝ) / 1000) = 160 := by
      rw [h1]
      unfold BulkVisc.pyInt
      rw [if_pos (by positivity), Int.floor_intCast]
    rw [h2]
    rfl
  · rfl

end ClaimTheorems

section FitClaimTheorems

/-- Claim C7: `fit_analysis` extracts `run.T` and `run.EF` as the offsets
(second fitted parameter) of the weighted linear fits of the T and EF
columns against the scan parameter (EF converted to kHz by dividing by
`h*1e3`), `run.loss_rate` as slope/offset of the N fit and `run.heating` as
slope/offset `Ei` of the energy fit; for exactly two averaged points the
dispatch calls `analysis_for_dof_equals_two`, which uses the minimum- and
maximum-parameter rows instead. -/
theorem C7_parameter_extraction (rows : List FitHeating.AvgRow) :
    (FitHeating.fit_analysis rows).T
      = (FitHeating.curve_fit_linear (rows.map (·.time)) (rows.map (·.T))
          (rows.map (·.em_T))).2 ∧
    (FitHeating.fit_analysis rows).EF
      = (FitHeating.curve_fit_linear (rows.map (·.time)) (rows.map (·.EF))
          (rows.map (·.em_EF))).2 / FitHeating.h / 1000 ∧
    (FitHeating.fit_analysis rows).loss_rate
      = (FitHeating.curve_fit_linear (rows.map (·.time)) (rows.map (·.N))
          (rows.map (·.em_N))).1
        / (FitHeating.curve_fit_linear (rows.map (·.time)) (rows.map (·.N))
          (rows.map (·.em_N))).2 ∧
    (FitHeating.fit_analysis rows).Ei
      = (FitHeating.curve_fit_linear (rows.map (·.time)) (rows.map (·.meanEtot_kHz))
          (rows.map (·.em_meanEtot_kHz))).2 ∧
    (FitHeating.fit_analysis rows).heating
      = (FitHeating.curve_fit_linear (rows.map (·.time)) (rows.map (·.meanEtot_kHz))
          (rows.map (·.em_meanEtot_kHz))).1
        / (FitHeating.curve_fit_linear (rows.map (·.time)) (rows.map (·.meanEtot_kHz))
          (rows.map (·.em_meanEtot_kHz))).2 ∧
    (FitHeating.analysis_for_dof_equals_two rows).T = (FitHeating.minRow rows).T ∧
    (FitHeating.analysis_for_dof_equals_two rows).EF
      = (FitHeating.minRow rows).EF / FitHeating.h / 1000 ∧
    (FitHeating.analysis_for_dof_equals_two rows).heating
      = ((FitHeating.maxRow rows).meanEtot_kHz / (FitHeating.minRow rows).meanEtot_kHz - 1)
        / ((FitHeating.maxRow rows).time - (FitHeating.minRow rows).time) ∧
    (FitHeating.analysis_for_dof_equals_two rows).loss_rate
      = ((FitHeating.maxRow rows).N - (FitHeating.minRow rows).N)
        / ((FitHeating.maxRow rows).time - (FitHeating.minRow rows).time)
        / (FitHeating.minRow rows).N ∧
    FitHeating.run_analysis rows
      = if rows.length = 2 then FitHeating.analysis_for_dof_equals_two rows
        else FitHeating.fit_analysis rows :=
  ⟨rfl, rfl, rfl, rfl, rfl, rfl, rfl, rfl, rfl, rfl⟩

/-- Claim C5 (amended): the chi-square `try/except` sets `chi_sq = 1` exactly
when `dof = len - 2` is zero and otherwise stores the reduced chi-square; the
beta `try/except` substitutes `1.8339e-05` exactly when the beta column is
missing; in both cases every other computed attribute is given by the same
branch-free formula (the analysis result does not depend on the beta column
at all); additionally `fix_attribute` catches `KeyError` while trying
candidate column names. -/
theorem C5_amended_exception_recovery (rows : List FitHeating.AvgRow)
    (beta_col : Option ℝ) (b v : ℝ) (cols : List (String × ℝ)) (nm : String)
    (rest : List String) :
    (FitHeating.fit_analysis rows).chi_sq
      = (if ((rows.length : ℤ) - 2) = 0 then 1
         else FitHeating.chi_sq_value (rows.map (·.meanEtot_kHz))
            ((rows.map (·.time)).map (fun x =>
              (FitHeating.curve_fit_linear (rows.map (·.time))
                (rows.map (·.meanEtot_kHz)) (rows.map (·.em_meanEtot_kHz))).1 * x
              + (FitHeating.curve_fit_linear (rows.map (·.time))
                (rows.map (·.meanEtot_kHz)) (rows.map (·.em_meanEtot_kHz))).2))
            (rows.map (·.em_meanEtot_kHz)) ((rows.length : ℤ) - 2)) ∧
    (FitHeating.fit_analysis rows).dof = (rows.length : ℤ) - 2 ∧
    FitHeating.run_beta none = 1.8339e-5 ∧
    FitHeating.run_beta (some b) = b ∧
    (FitHeating.analyze_run rows beta_col).1 = FitHeating.run_analysis rows ∧
    (FitHeating.analyze_run rows beta_col).2 = FitHeating.run_beta beta_col ∧
    (FitHeating.fit_analysis rows).T
      = (FitHeating.curve_fit_linear (rows.map (·.time)) (rows.map (·.T))
          (rows.map (·.em_T))).2 ∧
    (FitHeating.fit_analysis rows).EF
      = (FitHeating.curve_fit_linear (rows.map (·.time)) (rows.map (·.EF))
          (rows.map (·.em_EF))).2 / FitHeating.h / 1000 ∧
    (FitHeating.fit_analysis rows).N
      = (FitHeating.curve_fit_linear (rows.map (·.time)) (rows.map (·.N))
          (rows.map (·.em_N))).2 ∧
    (FitHeating.fit_analysis rows).ToTF
      = (FitHeating.curve_fit_linear (rows.map (·.time)) (rows.map (·.ToTF))
          (rows.map (·.em_ToTF))).2 ∧
    FitHeating.fix_attribute (some v) cols (nm :: rest) = some v ∧
    FitHeating.fix_attribute none cols (nm :: rest)
      = (match FitHeating.dat_lookup cols nm with
         | Except.ok w => some w
         | Except.error _ => FitHeating.try_names cols rest) := by
  refine ⟨?_, rfl, rfl, rfl, rfl, rfl, rfl, rfl, rfl, rfl, rfl, rfl⟩
  by_cases hd : ((rows.length : ℤ) - 2) = 0
  · simp only [FitHeating.fit_analysis, FitHeating.chi_sq, hd, if_true, if_pos]
  · simp only [FitHeating.fit_analysis, FitHeating.chi_sq, hd, if_false, if_neg,
      not_false_iff]

/-- Counterexample to claim C5 as stated: a third caught-and-recovered
exception exists.  With a .dat file whose data has a wigglefreq column but
no freq column, `fix_attribute` recovers from the `KeyError` raised on
the missing freq column (shown by `dat_lookup` returning the error) and fills the attribute
from the next candidate name. -/
theorem C5_counterexample_fix_attribute_catches_KeyError :
    FitHeating.fix_attribute none [("wigglefreq", (5 : ℝ))]
        ["freq", "wigglefreq", "wiggle freq"] = some 5 ∧
    FitHeating.dat_lookup [("wigglefreq", (5 : ℝ))] "freq" = Except.error () := by
  constructor <;> rfl

/-- Claim C6 (amended): every function of the `fit_functions.py` catalogue
returns a model that is a fixed closed-form expression independent of the
data argument; the expression agrees with the one named in the docstring for
every function except `Sinc2` (whose docstring omits the square) and
`FixedSin`/`FixedSin5kHz` (whose docstrings round `omega = 0.02*pi` to 0.0628
and `omega = 0.01*pi` to 0.0314); the conjuncts below state the exact model
of each catalogue entry. -/
theorem C6_amended_catalogue_models (data : List (ℝ × ℝ)) :
    (∀ x m b, (FitFunctions.Linear data).model x [m, b] = m * x + b) ∧
    (∀ x A x0 C, (FitFunctions.Parabola data).model x [A, x0, C]
        = A * (x - x0) ^ 2 + C) ∧
    (∀ x A x0, (FitFunctions.Sqrt data).model x [A, x0] = A * Real.sqrt (x - x0)) ∧
    (∀ x A x0 sigma C, (FitFunctions.Gaussian data).model x [A, x0, sigma, C]
        = A * Real.exp (-(x - x0) ^ 2 / (2 * sigma ^ 2)) + C) ∧
    (∀ x A x0 sigma C, (FitFunctions.Lorentzian data).model x [A, x0, sigma, C]
        = A / ((x - x0) ^ 2 + sigma ^ 2) + C) ∧
    (∀ x A omega phi C, (FitFunctions.Sin data).model x [A, omega, phi, C]
        = A * Real.sin (omega * x - phi) + C) ∧
    (∀ x A x0 sigma C, (FitFunctions.Sinc data).model x [A, x0, sigma, C]
        = A * FitFunctions.np_sinc ((x - x0) / sigma) + C) ∧
    (∀ x A x0 sigma C, (FitFunctions.Sinc2 data).model x [A, x0, sigma, C]
        = A * FitFunctions.np_sinc ((x - x0) / sigma) ^ 2 + C) ∧
    (∀ x A b l x0 C D, (FitFunctions.TrapFreq data).model x [A, b, l, x0, C, D]
        = A * Real.exp (-x / b) * Real.sin (l * x - x0) + C + D * x) ∧
    (∀ x A b l x0 C D, (FitFunctions.TrapFreq2 data).model x [A, b, l, x0, C, D]
        = A * Real.exp (-x / b) * Real.sin (l * x - x0) + C) ∧
    (∀ x A b x0 C, (FitFunctions.RabiFreq data).model x [A, b, x0, C]
        = A * Real.sin (b / 2 * x - x0) ^ 2 + C) ∧
    (∀ x A sigma, (FitFunctions.Expontial data).model x [A, sigma]
        = A * Real.exp (-x / sigma)) ∧
    (∀ x b l m A s j k p, (FitFunctions.RabiLine data).model x [b, l, m, A, s, j, k, p]
        = b ^ 2 / (l ^ 2 + (x - m) ^ 2)
          * (A * Real.sin (Real.sqrt (s ^ 2 + (x - j) ^ 2) * k) ^ 2 + p)) ∧
    (∀ x A x0 b C, (FitFunctions.ErfcFit data).model x [A, x0, b, C]
        = A * FitFunctions.erfc ((x - x0) / b) + C) ∧
    (∀ t omega A B C, (FitFunctions.SinplusCos data).model t [omega, A, B, C]
        = A * Real.sin (omega * t) + B * Real.cos (omega * t) + C) ∧
    (∀ t A p C, (FitFunctions.FixedSin data).model t [A, p, C]
        = A * Real.sin (0.010 * 2 * Real.pi * t - p) + C) ∧
    (∀ t A p C, (FitFunctions.FixedSin5kHz data).model t [A, p, C]
        = A * Real.sin (0.005 * 2 * Real.pi * t - p) + C) := by
  refine ⟨?_, ?_, ?_, ?_, ?_, ?_, ?_, ?_, ?_, ?_, ?_, ?_, ?_, ?_, ?_, ?_, ?_⟩ <;>
    intros <;> rfl

/-- Counterexample to claim C6 as stated: the `Sinc2` model does not equal
the closed form named in its docstring (`A*np.sinc((x-x0)/sigma) + C`).  At
`x = 1/2` with `A = 1, x0 = 0, sigma = 1, C = 0` the model gives
`(2/pi)^2` while the docstring expression gives `2/pi`. -/
theorem C6_counterexample_Sinc2_docstring :
    (FitFunctions.Sinc2 ([] : List (ℝ × ℝ))).model (1 / 2) [1, 0, 1, 0]
      ≠ 1 * FitFunctions.np_sinc (((1 : ℝ) / 2 - 0) / 1) + 0 := by
  have harg : (((1 : ℝ) / 2 - 0) / 1) = 1 / 2 := by norm_num
  have hs : FitFunctions.np_sinc (((1 : ℝ) / 2 - 0) / 1) = 2 / Real.pi := by
    rw [harg]
    unfold FitFunctions.np_sinc
    rw [if_neg (by norm_num)]
    have hhalf : Real.pi * (1 / 2) = Real.pi / 2 := by ring
    rw [hhalf, Real.sin_pi_div_two]
    rw [one_div, inv_div]
  have hmodel : (FitFunctions.Sinc2 ([] : List (ℝ × ℝ))).model (1 / 2) [1, 0, 1, 0]
      = 1 * FitFunctions.np_sinc (((1 : ℝ) / 2 - 0) / 1) ^ 2 + 0 := rfl
  rw [hmodel, hs]
  have hpi := Real.pi_gt_three
  have hpi0 := Real.pi_pos
  intro hcontra
  field_simp at hcontra
  nlinarith

/-- Claim C9 (amended): for every catalogue function returning a non-`none`
guess, the guess length equals the number of free model parameters; the
parameter-name list has that same length for every function except
`TrapFreq2` (names 5, guess and model 6) and `SinplusCos` (names 3, guess and
model 4). -/
theorem C9_amended_guess_lengths (data : List (ℝ × ℝ)) :
    ((FitFunctions.Linear data).guess = none ∧
      (FitFunctions.Linear data).param_names.length = 2 ∧
      (FitFunctions.Linear data).arity = 2) ∧
    ((FitFunctions.Parabola data).guess.map List.length = some 3 ∧
      (FitFunctions.Parabola data).param_names.length = 3 ∧
      (FitFunctions.Parabola data).arity = 3) ∧
    ((FitFunctions.Sqrt data).guess.map List.length = some 2 ∧
      (FitFunctions.Sqrt data).param_names.length = 2 ∧
      (FitFunctions.Sqrt data).arity = 2) ∧
    ((FitFunctions.Gaussian data).guess.map List.length = some 4 ∧
      (FitFunctions.Gaussian data).param_names.length = 4 ∧
      (FitFunctions.Gaussian data).arity = 4) ∧
    ((FitFunctions.Lorentzian data).guess.map List.length = some 4 ∧
      (FitFunctions.Lorentzian data).param_names.length = 4 ∧
      (FitFunctions.Lorentzian data).arity = 4) ∧
    ((FitFunctions.Sin data).guess.map List.length = some 4 ∧
      (FitFunctions.Sin data).param_names.length = 4 ∧
      (FitFunctions.Sin data).arity = 4) ∧
    ((FitFunctions.Sinc data).guess.map List.length = some 4 ∧
      (FitFunctions.Sinc data).param_names.length = 4 ∧
      (FitFunctions.Sinc data).arity = 4) ∧
    ((FitFunctions.Sinc2 data).guess.map List.length = some 4 ∧
      (FitFunctions.Sinc2 data).param_names.length = 4 ∧
      (FitFunctions.Sinc2 data).arity = 4) ∧
    ((FitFunctions.TrapFreq data).guess.map List.length = some 6 ∧
      (FitFunctions.TrapFreq data).param_names.length = 6 ∧
      (FitFunctions.TrapFreq data).arity = 6) ∧
    ((FitFunctions.TrapFreq2 data).guess.map List.length = some 6 ∧
      (FitFunctions.TrapFreq2 data).param_names.length = 5 ∧
      (FitFunctions.TrapFreq2 data).arity = 6) ∧
    ((FitFunctions.RabiFreq data).guess.map List.length = some 4 ∧
      (FitFunctions.RabiFreq data).param_names.length = 4 ∧
      (FitFunctions.RabiFreq data).arity = 4) ∧
    ((FitFunctions.Expontial data).guess.map List.length = some 2 ∧
      (FitFunctions.Expontial data).param_names.length = 2 ∧
      (FitFunctions.Expontial data).arity = 2) ∧
    ((FitFunctions.RabiLine data).guess.map List.length = some 8 ∧
      (FitFunctions.RabiLine data).param_names.length = 8 ∧
      (FitFunctions.RabiLine data).arity = 8) ∧
    ((FitFunctions.ErfcFit data).guess.map List.length = some 4 ∧
      (FitFunctions.ErfcFit data).param_names.length = 4 ∧
      (FitFunctions.ErfcFit data).arity = 4) ∧
    ((FitFunctions.SinplusCos data).guess.map List.length = some 4 ∧
      (FitFunctions.SinplusCos data).param_names.length = 3 ∧
      (FitFunctions.SinplusCos data).arity = 4) ∧
    ((FitFunctions.FixedSin data).guess.map List.length = some 3 ∧
      (FitFunctions.FixedSin data).param_names.length = 3 ∧
      (FitFunctions.FixedSin data).arity = 3) ∧
    ((FitFunctions.FixedSin5kHz data).guess.map List.length = some 3 ∧
      (FitFunctions.FixedSin5kHz data).param_names.length = 3 ∧
      (FitFunctions.FixedSin5kHz data).arity = 3) :=
  ⟨⟨rfl, rfl, rfl⟩, ⟨rfl, rfl, rfl⟩, ⟨rfl, rfl, rfl⟩, ⟨rfl, rfl, rfl⟩,
    ⟨rfl, rfl, rfl⟩, ⟨rfl, rfl, rfl⟩, ⟨rfl, rfl, rfl⟩, ⟨rfl, rfl, rfl⟩,
    ⟨rfl, rfl, rfl⟩, ⟨rfl, rfl, rfl⟩, ⟨rfl, rfl, rfl⟩, ⟨rfl, rfl, rfl⟩,
    ⟨rfl, rfl, rfl⟩, ⟨rfl, rfl, rfl⟩, ⟨rfl, rfl, rfl⟩, ⟨rfl, rfl, rfl⟩,
    rfl, rfl, rfl⟩

/-- Counterexample to claim C9 as stated: `TrapFreq2` returns a 6-element
guess but only 5 parameter names. -/
theorem C9_counterexample_TrapFreq2_lengths :
    ((FitFunctions.TrapFreq2 ([] : List (ℝ × ℝ))).guess.getD []).length
      ≠ (FitFunctions.TrapFreq2 ([] : List (ℝ × ℝ))).param_names.length := by
  decide

end FitClaimTheorems
